import Mathlib

set_option maxRecDepth 10000

/-!
Verification of the EcoVista wallpaper backend (src/server.js).

The single endpoint `POST /api/v1/generate-wallpaper` is embedded as a pure
function from the request body and the outcome of the (single) upstream call
to the HTTP response it sends, together with the outbound request it issued
(if any).  JavaScript dynamic values relevant to the handler are modelled by
`JsVal`; the exception raised by calling `.trim()` on a non-string, and the
two axios failure modes (HTTP error with a response object, transport error
without one), are modelled by `RaisedError` and handled by `catchResponse`,
mirroring the `try/catch` in the source.
-/

namespace EcoVista

/-- A JavaScript value as far as the handler inspects one: the `prompt`,
`user_id` and `app_version` fields of the request body. -/
inductive JsVal where
  | undefined
  | nullv
  | boolean (b : Bool)
  | num (n : Int)
  | str (s : String)
  | object
  deriving DecidableEq, Repr

/-- JavaScript truthiness, `Boolean(v)`: `undefined`, `null`, `false`, `0`
and `""` are falsy, everything else here is truthy. -/
def truthy : JsVal → Bool
  | .undefined => false
  | .nullv => false
  | .boolean b => b
  | .num n => n != 0
  | .str s => s != ""
  | .object => true

/-- An element of the upstream payload field `images`; its `url` field may be
absent (`none`). -/
structure ImageEntry where
  url : Option String
  deriving DecidableEq, Repr

/-- The upstream 2xx payload (`response.data`): each of the two probed fields
may be absent (`none`) or an array. -/
structure Payload where
  images : Option (List ImageEntry)
  output : Option (List String)
  deriving DecidableEq, Repr

/-- Outcome of the single axios call: a 2xx response with a payload, a
non-2xx HTTP status (axios raises an error carrying `error.response.status`),
or a transport-level failure such as a timeout or connection error (axios
raises an error with no `response` object). -/
inductive Upstream where
  | ok (data : Payload)
  | httpFailure (status : Nat)
  | transportFailure
  deriving DecidableEq, Repr

/-- The outbound request body sent to the image-generation service
(lines 71-79 of server.js): fixed model and generation parameters plus the
augmented prompt. -/
structure UpstreamCall where
  model : String
  prompt : String
  numOutputs : Nat
  aspectRatio : String
  outputFormat : String
  outputQuality : Nat
  deriving DecidableEq, Repr

/-- The response sent to the client.  A failure records the HTTP status, the
`error` message, the `code`, and whether the body additionally carries a
`timestamp` field (`true` exactly when the JSON literal in the source
includes one); a success carries `image_url`, `prompt_used` and the echoed
`user_id` (the `generation_time` and fixed `message` fields are not
modelled). -/
inductive Response where
  | success (imageUrl promptUsed : String) (userId : JsVal)
  | failure (status : Nat) (error code : String) (hasTimestamp : Bool)
  deriving DecidableEq, Repr

/-- The parsed JSON request body, restricted to the three destructured
fields (line 47); an absent field is `JsVal.undefined`. -/
structure Body where
  prompt : JsVal
  userId : JsVal
  appVersion : JsVal
  deriving DecidableEq, Repr

/-- A character the JavaScript `String.prototype.trim` removes: whitespace
(space, tab, line terminators, vertical tab, form feed, no-break space,
byte-order mark). -/
def isJsSpace (c : Char) : Bool :=
  c = ' ' || c = '\t' || c = '\n' || c = '\r' ||
  c = '\x0b' || c = '\x0c' || c.toNat = 0xa0 || c.toNat = 0xfeff

/-- JavaScript `s.trim()`: strip leading and trailing whitespace. -/
def jsTrim (s : String) : String :=
  String.mk (((s.data.dropWhile isJsSpace).reverse.dropWhile isJsSpace).reverse)

/-- The fixed stylistic suffix appended to every validated prompt
(line 65 of server.js). -/
def promptSuffix : String :=
  ", beautiful nature wallpaper, high quality, mobile phone wallpaper, 4K, detailed, stunning, peaceful natural scenery"

/-- An exception reaching the handler's `catch` block: the `TypeError` from
`prompt.trim()` on a truthy non-string, or an axios error (with or without a
`response` object). -/
inductive RaisedError where
  | typeError
  | httpError (status : Nat)
  | transportError
  deriving DecidableEq, Repr

/-- The 400 `INVALID_PROMPT` response (lines 51-55); its body has only the
`error` and `code` fields. -/
def invalidPromptResponse : Response :=
  .failure 400 "Please provide a detailed description (at least 3 characters)"
    "INVALID_PROMPT" false

/-- The 400 `PROMPT_TOO_LONG` response (lines 58-61); its body has only the
`error` and `code` fields. -/
def promptTooLongResponse : Response :=
  .failure 400 "Description too long. Please keep it under 500 characters"
    "PROMPT_TOO_LONG" false

/-- The 500 `NO_IMAGE_GENERATED` response (lines 101-104); its body has only
the `error` and `code` fields. -/
def noImageResponse : Response :=
  .failure 500 "Failed to generate wallpaper. Please try a different description."
    "NO_IMAGE_GENERATED" false

/-- The response extraction of lines 91-97: probe `data.images` first — when
it is a present, non-empty array take `images[0].url` (which may itself be
absent) — otherwise probe `data.output` and take `output[0]` when present
and non-empty. -/
def extractImageUrl (data : Payload) : Option String :=
  match data.images with
  | some (first :: _) => first.url
  | _ =>
    match data.output with
    | some (first :: _) => some first
    | _ => none

/-- Lines 91-117: compute `imageURL`; when it is falsy (absent or the empty
string, line 99 `if (!imageURL)`) answer `NO_IMAGE_GENERATED`, otherwise send
the success response. -/
def respond (data : Payload) (enhanced : String) (uid : JsVal) : Response :=
  match extractImageUrl data with
  | some url => if url = "" then noImageResponse else .success url enhanced uid
  | none => noImageResponse

/-- The fixed outbound request of lines 71-79 for a given augmented prompt. -/
def buildUpstreamCall (enhanced : String) : UpstreamCall :=
  { model := "FLUX.1-schnell", prompt := enhanced, numOutputs := 1,
    aspectRatio := "9:16", outputFormat := "webp", outputQuality := 90 }

/-- The `try` block of the handler (lines 44-117): validation, prompt
augmentation, the upstream call and response extraction.  Returns the
response or the exception that escapes to `catch`, together with the
outbound request issued (`none` when the upstream call was never made). -/
def tryBlock (b : Body) (u : Upstream) :
    Except RaisedError Response × Option UpstreamCall :=
  if !truthy b.prompt then (.ok invalidPromptResponse, none)
  else
    match b.prompt with
    | .str s =>
      if (jsTrim s).length < 3 then (.ok invalidPromptResponse, none)
      else if s.length > 500 then (.ok promptTooLongResponse, none)
      else
        let enhanced := s ++ promptSuffix
        let call := buildUpstreamCall enhanced
        match u with
        | .ok data => (.ok (respond data enhanced b.userId), some call)
        | .httpFailure st => (.error (.httpError st), some call)
        | .transportFailure => (.error .transportError, some call)
    | _ => (.error .typeError, none)

/-- The `catch` block (lines 119-152): default `SERVICE_ERROR`/500,
overridden by the fixed table when the error carries a `response` whose
status is 401, 429 or 400.  Every body built here carries `error`, `code`
and `timestamp`. -/
def catchResponse : RaisedError → Response
  | .httpError 401 =>
    .failure 503 "Service authentication error. Please contact support."
      "AUTH_ERROR" true
  | .httpError 429 =>
    .failure 429 "Daily AI generation limit reached. Please try again tomorrow!"
      "RATE_LIMIT" true
  | .httpError 400 =>
    .failure 400 "Invalid request. Please try a different description."
      "INVALID_REQUEST" true
  | _ =>
    .failure 500 "AI service temporarily unavailable. Please try again later."
      "SERVICE_ERROR" true

/-- The whole handler `POST /api/v1/generate-wallpaper`: run the `try` block
and convert any escaped exception through the `catch` block.  The second
component is the outbound request issued, `none` when the upstream service
was never contacted. -/
def generateWallpaper (b : Body) (u : Upstream) : Response × Option UpstreamCall :=
  match tryBlock b u with
  | (.ok r, c) => (r, c)
  | (.error e, c) => (catchResponse e, c)

/-- A string prompt passes the validation of lines 50-62: truthy
(non-empty), trimmed length at least 3, raw length at most 500. -/
def validPrompt (s : String) : Prop :=
  s ≠ "" ∧ 3 ≤ (jsTrim s).length ∧ s.length ≤ 500

instance (s : String) : Decidable (validPrompt s) := by
  unfold validPrompt
  infer_instance

/-- Whether the `prompt` field is a string. -/
def isStr : JsVal → Bool
  | .str _ => true
  | _ => false

/-- A response is one of the documented shapes: a success, or a failure whose
status and `code` belong to the documented taxonomy. -/
def Response.structured : Response → Bool
  | .success _ _ _ => true
  | .failure st _ c _ =>
    (st == 400 || st == 429 || st == 500 || st == 503) &&
    (c == "INVALID_PROMPT" || c == "PROMPT_TOO_LONG" || c == "NO_IMAGE_GENERATED" ||
     c == "AUTH_ERROR" || c == "RATE_LIMIT" || c == "INVALID_REQUEST" ||
     c == "SERVICE_ERROR")

/-! ## Reduction lemmas -/

/-- For a validated string prompt the `try` block reaches the upstream call:
its outcome is determined by `u` and the outbound request is the fixed call
with the augmented prompt. -/
theorem tryBlock_valid (s : String) (uid av : JsVal) (u : Upstream)
    (h : validPrompt s) :
    tryBlock ⟨.str s, uid, av⟩ u =
      ((match u with
        | .ok d => Except.ok (respond d (s ++ promptSuffix) uid)
        | .httpFailure st => Except.error (.httpError st)
        | .transportFailure => Except.error .transportError),
       some (buildUpstreamCall (s ++ promptSuffix))) := by
  obtain ⟨h1, h2, h3⟩ := h
  have ht : truthy (.str s) = true := by simp [truthy, h1]
  unfold tryBlock
  simp only [ht, Bool.not_true, Bool.false_eq_true, if_false]
  rw [if_neg (Nat.not_lt.mpr h2), if_neg (by omega : ¬ s.length > 500)]
  cases u <;> rfl

theorem generateWallpaper_valid_ok (s : String) (uid av : JsVal) (d : Payload)
    (h : validPrompt s) :
    generateWallpaper ⟨.str s, uid, av⟩ (.ok d) =
      (respond d (s ++ promptSuffix) uid,
       some (buildUpstreamCall (s ++ promptSuffix))) := by
  unfold generateWallpaper
  rw [tryBlock_valid s uid av (.ok d) h]

theorem generateWallpaper_valid_http (s : String) (uid av : JsVal) (st : Nat)
    (h : validPrompt s) :
    generateWallpaper ⟨.str s, uid, av⟩ (.httpFailure st) =
      (catchResponse (.httpError st),
       some (buildUpstreamCall (s ++ promptSuffix))) := by
  unfold generateWallpaper
  rw [tryBlock_valid s uid av (.httpFailure st) h]

theorem generateWallpaper_valid_transport (s : String) (uid av : JsVal)
    (h : validPrompt s) :
    generateWallpaper ⟨.str s, uid, av⟩ .transportFailure =
      (catchResponse .transportError,
       some (buildUpstreamCall (s ++ promptSuffix))) := by
  unfold generateWallpaper
  rw [tryBlock_valid s uid av .transportFailure h]

/-- The default branch of the error-mapping table: a status other than 401,
429 and 400 yields the `SERVICE_ERROR` response. -/
theorem catchResponse_other (st : Nat) (h1 : st ≠ 401) (h2 : st ≠ 429)
    (h3 : st ≠ 400) :
    catchResponse (.httpError st) =
      .failure 500 "AI service temporarily unavailable. Please try again later."
        "SERVICE_ERROR" true := by
  unfold catchResponse
  split
  all_goals first
    | rfl
    | (rename_i heq; exact absurd (by injection heq) (by omega))

/-! ## Claims -/

/-- C1: for every request that passes validation and whose upstream call
fails, the failure sent to the client follows the fixed mapping table:
upstream 401 yields `AUTH_ERROR` with client status 503, 429 yields
`RATE_LIMIT` with 429, 400 yields `INVALID_REQUEST` with 400, and any other
status, or a transport-level failure with no response object, yields
`SERVICE_ERROR` with 500. -/
theorem upstream_failure_mapping (s : String) (uid av : JsVal) (st : Nat)
    (h : validPrompt s) (h1 : st ≠ 401) (h2 : st ≠ 429) (h3 : st ≠ 400) :
    (generateWallpaper ⟨.str s, uid, av⟩ (.httpFailure 401)).1 =
      .failure 503 "Service authentication error. Please contact support."
        "AUTH_ERROR" true ∧
    (generateWallpaper ⟨.str s, uid, av⟩ (.httpFailure 429)).1 =
      .failure 429 "Daily AI generation limit reached. Please try again tomorrow!"
        "RATE_LIMIT" true ∧
    (generateWallpaper ⟨.str s, uid, av⟩ (.httpFailure 400)).1 =
      .failure 400 "Invalid request. Please try a different description."
        "INVALID_REQUEST" true ∧
    (generateWallpaper ⟨.str s, uid, av⟩ (.httpFailure st)).1 =
      .failure 500 "AI service temporarily unavailable. Please try again later."
        "SERVICE_ERROR" true ∧
    (generateWallpaper ⟨.str s, uid, av⟩ .transportFailure).1 =
      .failure 500 "AI service temporarily unavailable. Please try again later."
        "SERVICE_ERROR" true := by
  refine ⟨?_, ?_, ?_, ?_, ?_⟩
  · rw [generateWallpaper_valid_http s uid av 401 h]; rfl
  · rw [generateWallpaper_valid_http s uid av 429 h]; rfl
  · rw [generateWallpaper_valid_http s uid av 400 h]; rfl
  · rw [generateWallpaper_valid_http s uid av st h]
    exact catchResponse_other st h1 h2 h3
  · rw [generateWallpaper_valid_transport s uid av h]; rfl

theorem upstream_failure_mapping_witness :
    (generateWallpaper ⟨.str "a calm lake at dawn", .undefined, .undefined⟩
        (.httpFailure 401)).1 =
      .failure 503 "Service authentication error. Please contact support."
        "AUTH_ERROR" true ∧
    (generateWallpaper ⟨.str "a calm lake at dawn", .undefined, .undefined⟩
        (.httpFailure 429)).1 =
      .failure 429 "Daily AI generation limit reached. Please try again tomorrow!"
        "RATE_LIMIT" true ∧
    (generateWallpaper ⟨.str "a calm lake at dawn", .undefined, .undefined⟩
        (.httpFailure 400)).1 =
      .failure 400 "Invalid request. Please try a different description."
        "INVALID_REQUEST" true ∧
    (generateWallpaper ⟨.str "a calm lake at dawn", .undefined, .undefined⟩
        (.httpFailure 502)).1 =
      .failure 500 "AI service temporarily unavailable. Please try again later."
        "SERVICE_ERROR" true ∧
    (generateWallpaper ⟨.str "a calm lake at dawn", .undefined, .undefined⟩
        .transportFailure).1 =
      .failure 500 "AI service temporarily unavailable. Please try again later."
        "SERVICE_ERROR" true :=
  upstream_failure_mapping "a calm lake at dawn" .undefined .undefined 502
    (by decide) (by decide) (by decide) (by decide)

/-- C2: a request whose prompt is absent, or is a string of trimmed length
below 3 (in particular the empty string), is answered with the 400
`INVALID_PROMPT` response and no outbound call is made. -/
theorem short_prompt_rejected (s : String) (uid av : JsVal) (u : Upstream)
    (h : (jsTrim s).length < 3) :
    generateWallpaper ⟨.str s, uid, av⟩ u = (invalidPromptResponse, none) ∧
    generateWallpaper ⟨.undefined, uid, av⟩ u = (invalidPromptResponse, none) ∧
    invalidPromptResponse =
      .failure 400 "Please provide a detailed description (at least 3 characters)"
        "INVALID_PROMPT" false := by
  refine ⟨?_, rfl, rfl⟩
  by_cases hs : s = ""
  · subst hs; rfl
  · have ht : truthy (.str s) = true := by simp [truthy, hs]
    unfold generateWallpaper tryBlock
    simp only [ht, Bool.not_true, Bool.false_eq_true, if_false]
    rw [if_pos h]

theorem short_prompt_rejected_witness :
    generateWallpaper ⟨.str "hi", .undefined, .undefined⟩ .transportFailure =
      (invalidPromptResponse, none) ∧
    generateWallpaper ⟨.undefined, .undefined, .undefined⟩ .transportFailure =
      (invalidPromptResponse, none) ∧
    invalidPromptResponse =
      .failure 400 "Please provide a detailed description (at least 3 characters)"
        "INVALID_PROMPT" false :=
  short_prompt_rejected "hi" .undefined .undefined .transportFailure (by decide)

/-- A 501-character prompt whose trimmed form is only 2 characters: 499
spaces followed by `ab`. -/
def longBlankPrompt : String :=
  String.mk (List.replicate 499 ' ' ++ ['a', 'b'])

/-- C3, counterexample: the claim fails as stated.  This prompt has raw
length 501 (greater than 500), yet the handler answers `INVALID_PROMPT`,
not `PROMPT_TOO_LONG`, because its trimmed length is below 3 and that check
runs first. -/
theorem long_prompt_counterexample :
    longBlankPrompt.length = 501 ∧
    generateWallpaper ⟨.str longBlankPrompt, .undefined, .undefined⟩ .transportFailure =
      (invalidPromptResponse, none) ∧
    invalidPromptResponse ≠ promptTooLongResponse := by
  refine ⟨by decide, by decide, by decide⟩

/-- C3, amended: a string prompt with raw length above 500 whose trimmed
length is at least 3 is answered with the 400 `PROMPT_TOO_LONG` response and
no outbound call is made (when the trimmed length is below 3 the
`INVALID_PROMPT` check fires first instead). -/
theorem long_prompt_rejected (s : String) (uid av : JsVal) (u : Upstream)
    (h2 : 3 ≤ (jsTrim s).length) (h3 : 500 < s.length) :
    generateWallpaper ⟨.str s, uid, av⟩ u = (promptTooLongResponse, none) ∧
    promptTooLongResponse =
      .failure 400 "Description too long. Please keep it under 500 characters"
        "PROMPT_TOO_LONG" false := by
  refine ⟨?_, rfl⟩
  have hs : s ≠ "" := by
    intro he
    rw [he] at h2
    exact absurd h2 (by decide)
  have ht : truthy (.str s) = true := by simp [truthy, hs]
  unfold generateWallpaper tryBlock
  simp only [ht, Bool.not_true, Bool.false_eq_true, if_false]
  rw [if_neg (Nat.not_lt.mpr h2), if_pos h3]

theorem long_prompt_rejected_witness :
    generateWallpaper
        ⟨.str ("abc" ++ String.mk (List.replicate 498 ' ')), .undefined, .undefined⟩
        .transportFailure =
      (promptTooLongResponse, none) ∧
    promptTooLongResponse =
      .failure 400 "Description too long. Please keep it under 500 characters"
        "PROMPT_TOO_LONG" false :=
  long_prompt_rejected ("abc" ++ String.mk (List.replicate 498 ' '))
    .undefined .undefined .transportFailure (by decide) (by decide)

/-- C4: for every prompt that passes validation, the outbound request is
made and its prompt field is exactly the user prompt concatenated with the
fixed suffix, whatever the upstream outcome; and a success response's
`prompt_used` field carries that same augmented string. -/
theorem augmented_prompt_sent (s : String) (uid av : JsVal) (u : Upstream)
    (d : Payload) (url : String) (h : validPrompt s)
    (hd : extractImageUrl d = some url) (hu : url ≠ "") :
    (generateWallpaper ⟨.str s, uid, av⟩ u).2 =
      some (buildUpstreamCall (s ++ promptSuffix)) ∧
    (buildUpstreamCall (s ++ promptSuffix)).prompt = s ++ promptSuffix ∧
    (generateWallpaper ⟨.str s, uid, av⟩ (.ok d)).1 =
      .success url (s ++ promptSuffix) uid := by
  refine ⟨?_, rfl, ?_⟩
  · unfold generateWallpaper
    rw [tryBlock_valid s uid av u h]
    cases u <;> rfl
  · rw [generateWallpaper_valid_ok s uid av d h]
    unfold respond
    rw [hd]
    simp [hu]

theorem augmented_prompt_sent_witness :
    (generateWallpaper ⟨.str "a calm lake at dawn", .undefined, .undefined⟩
        (.ok ⟨some [⟨some "https://cdn/x.webp"⟩], none⟩)).2 =
      some (buildUpstreamCall ("a calm lake at dawn" ++ promptSuffix)) ∧
    (buildUpstreamCall ("a calm lake at dawn" ++ promptSuffix)).prompt =
      "a calm lake at dawn" ++ promptSuffix ∧
    (generateWallpaper ⟨.str "a calm lake at dawn", .undefined, .undefined⟩
        (.ok ⟨some [⟨some "https://cdn/x.webp"⟩], none⟩)).1 =
      .success "https://cdn/x.webp" ("a calm lake at dawn" ++ promptSuffix)
        .undefined :=
  augmented_prompt_sent "a calm lake at dawn" .undefined .undefined
    (.ok ⟨some [⟨some "https://cdn/x.webp"⟩], none⟩)
    ⟨some [⟨some "https://cdn/x.webp"⟩], none⟩ "https://cdn/x.webp"
    (by decide) (by decide) (by decide)

/-- C5, counterexample: the claim fails as stated.  With a non-empty
`images` list whose first element carries the url `""`, the claim requires a
success with `image_url = ""`, but the handler treats the empty string as
falsy and answers `NO_IMAGE_GENERATED`. -/
theorem extraction_counterexample :
    (generateWallpaper ⟨.str "a calm lake at dawn", .undefined, .undefined⟩
        (.ok ⟨some [⟨some ""⟩], some ["https://cdn/x.webp"]⟩)).1 =
      noImageResponse ∧
    noImageResponse ≠
      .success "" ("a calm lake at dawn" ++ promptSuffix) .undefined := by
  refine ⟨by decide, by decide⟩

/-- C5, amended: extraction probes the two payload shapes in order, with the
proviso that the extracted value must be a non-empty string: when the
`images` list is non-empty and its first element's url is a non-empty
string, the result is success with that url (the `output` field is ignored);
when the `images` list is absent or empty and the `output` list is non-empty
with a non-empty first string, the result is success with that string. -/
theorem extraction_order (s : String) (uid av : JsVal) (url out : String)
    (rest : List ImageEntry) (outRest : List String)
    (o : Option (List String)) (h : validPrompt s) (hurl : url ≠ "")
    (hout : out ≠ "") :
    (generateWallpaper ⟨.str s, uid, av⟩
        (.ok ⟨some (⟨some url⟩ :: rest), o⟩)).1 =
      .success url (s ++ promptSuffix) uid ∧
    (generateWallpaper ⟨.str s, uid, av⟩
        (.ok ⟨none, some (out :: outRest)⟩)).1 =
      .success out (s ++ promptSuffix) uid ∧
    (generateWallpaper ⟨.str s, uid, av⟩
        (.ok ⟨some [], some (out :: outRest)⟩)).1 =
      .success out (s ++ promptSuffix) uid := by
  refine ⟨?_, ?_, ?_⟩ <;>
    [rw [generateWallpaper_valid_ok s uid av ⟨some (⟨some url⟩ :: rest), o⟩ h];
     rw [generateWallpaper_valid_ok s uid av ⟨none, some (out :: outRest)⟩ h];
     rw [generateWallpaper_valid_ok s uid av ⟨some [], some (out :: outRest)⟩ h]] <;>
    simp [respond, extractImageUrl, hurl, hout]

theorem extraction_order_witness :
    (generateWallpaper ⟨.str "a calm lake at dawn", .undefined, .undefined⟩
        (.ok ⟨some [⟨some "https://cdn/x.webp"⟩], some ["other"]⟩)).1 =
      .success "https://cdn/x.webp" ("a calm lake at dawn" ++ promptSuffix)
        .undefined ∧
    (generateWallpaper ⟨.str "a calm lake at dawn", .undefined, .undefined⟩
        (.ok ⟨none, some ["https://cdn/y.webp"]⟩)).1 =
      .success "https://cdn/y.webp" ("a calm lake at dawn" ++ promptSuffix)
        .undefined ∧
    (generateWallpaper ⟨.str "a calm lake at dawn", .undefined, .undefined⟩
        (.ok ⟨some [], some ["https://cdn/y.webp"]⟩)).1 =
      .success "https://cdn/y.webp" ("a calm lake at dawn" ++ promptSuffix)
        .undefined :=
  extraction_order "a calm lake at dawn" .undefined .undefined
    "https://cdn/x.webp" "https://cdn/y.webp" [] [] (some ["other"])
    (by decide) (by decide) (by decide)

/-- C6: when the upstream call succeeds but the payload has neither a
non-empty `images` list nor a non-empty `output` list, the handler answers
the 500 `NO_IMAGE_GENERATED` response, which is distinct from the
transport-level `SERVICE_ERROR` response. -/
theorem empty_payload_no_image (s : String) (uid av : JsVal)
    (imgs : Option (List ImageEntry)) (outs : Option (List String))
    (h : validPrompt s) (hi : imgs = none ∨ imgs = some [])
    (ho : outs = none ∨ outs = some []) :
    (generateWallpaper ⟨.str s, uid, av⟩ (.ok ⟨imgs, outs⟩)).1 =
      noImageResponse ∧
    noImageResponse =
      .failure 500 "Failed to generate wallpaper. Please try a different description."
        "NO_IMAGE_GENERATED" false ∧
    noImageResponse ≠ catchResponse .transportError := by
  refine ⟨?_, rfl, by decide⟩
  rw [generateWallpaper_valid_ok s uid av ⟨imgs, outs⟩ h]
  rcases hi with hi | hi <;> rcases ho with ho | ho <;> subst hi <;> subst ho <;> rfl

theorem empty_payload_no_image_witness :
    (generateWallpaper ⟨.str "a calm lake at dawn", .undefined, .undefined⟩
        (.ok ⟨none, some []⟩)).1 = noImageResponse ∧
    noImageResponse =
      .failure 500 "Failed to generate wallpaper. Please try a different description."
        "NO_IMAGE_GENERATED" false ∧
    noImageResponse ≠ catchResponse .transportError :=
  empty_payload_no_image "a calm lake at dawn" .undefined .undefined none (some [])
    (by decide) (Or.inl rfl) (Or.inr rfl)

/-- C10: when the `images` list is non-empty but its first element has no
url field, the handler answers `NO_IMAGE_GENERATED` even when the payload
also holds a non-empty `output` list with a usable URL: the `output` probe is
reached only when `images` is absent or empty. -/
theorem missing_url_no_fallback (s : String) (uid av : JsVal)
    (rest : List ImageEntry) (y : String) (outRest : List String)
    (h : validPrompt s) :
    (generateWallpaper ⟨.str s, uid, av⟩
        (.ok ⟨some (⟨none⟩ :: rest), some (y :: outRest)⟩)).1 =
      noImageResponse := by
  rw [generateWallpaper_valid_ok s uid av
    ⟨some (⟨none⟩ :: rest), some (y :: outRest)⟩ h]
  rfl

theorem missing_url_no_fallback_witness :
    (generateWallpaper ⟨.str "a calm lake at dawn", .undefined, .undefined⟩
        (.ok ⟨some [⟨none⟩], some ["https://cdn/y.webp"]⟩)).1 =
      noImageResponse :=
  missing_url_no_fallback "a calm lake at dawn" .undefined .undefined []
    "https://cdn/y.webp" [] (by decide)

/-- The extraction step answers either `NO_IMAGE_GENERATED` or a success
carrying the enhanced prompt and the echoed user id. -/
theorem respond_shape (d : Payload) (e : String) (uidv : JsVal) :
    respond d e uidv = noImageResponse ∨
    ∃ url, respond d e uidv = .success url e uidv := by
  unfold respond
  split
  · rename_i url _
    split
    · exact Or.inl rfl
    · exact Or.inr ⟨url, rfl⟩
  · exact Or.inl rfl

/-- Exhaustive shape of the `try` block's non-raising results. -/
theorem tryBlock_ok_shape (b : Body) (u : Upstream) (r : Response)
    (c : Option UpstreamCall) (h : tryBlock b u = (Except.ok r, c)) :
    r = invalidPromptResponse ∨ r = promptTooLongResponse ∨
    r = noImageResponse ∨ ∃ url pu uid2, r = Response.success url pu uid2 := by
  unfold tryBlock at h
  split at h
  · obtain ⟨h1, -⟩ := Prod.mk.injEq .. ▸ h
    exact Or.inl (Except.ok.injEq .. ▸ h1).symm
  · split at h
    · rename_i s heq
      split_ifs at h with hlt hlen
      · obtain ⟨h1, -⟩ := Prod.mk.injEq .. ▸ h
        exact Or.inl (Except.ok.injEq .. ▸ h1).symm
      · obtain ⟨h1, -⟩ := Prod.mk.injEq .. ▸ h
        exact Or.inr (Or.inl (Except.ok.injEq .. ▸ h1).symm)
      · cases u with
        | ok d =>
          obtain ⟨h1, -⟩ := Prod.mk.injEq .. ▸ h
          have hr : r = respond d (s ++ promptSuffix) b.userId :=
            (Except.ok.injEq .. ▸ h1).symm
          rcases respond_shape d (s ++ promptSuffix) b.userId with hq | ⟨url, hq⟩
          · exact Or.inr (Or.inr (Or.inl (hr.trans hq)))
          · exact Or.inr (Or.inr (Or.inr ⟨url, s ++ promptSuffix, b.userId,
              hr.trans hq⟩))
        | httpFailure st => simp at h
        | transportFailure => simp at h
    · simp at h

/-- Exhaustive shape of the handler's response: one of the three inline
failure responses, a success, or a `catch`-block response. -/
theorem generateWallpaper_shape (b : Body) (u : Upstream) :
    (generateWallpaper b u).1 = invalidPromptResponse ∨
    (generateWallpaper b u).1 = promptTooLongResponse ∨
    (generateWallpaper b u).1 = noImageResponse ∨
    (∃ url pu uid2, (generateWallpaper b u).1 = Response.success url pu uid2) ∨
    (∃ e, (generateWallpaper b u).1 = catchResponse e) := by
  unfold generateWallpaper
  rcases htb : tryBlock b u with ⟨x, c⟩
  cases x with
  | ok r =>
    rcases tryBlock_ok_shape b u r c htb with hr | hr | hr | ⟨url, pu, uid2, hr⟩
    · exact Or.inl hr
    · exact Or.inr (Or.inl hr)
    · exact Or.inr (Or.inr (Or.inl hr))
    · exact Or.inr (Or.inr (Or.inr (Or.inl ⟨url, pu, uid2, hr⟩)))
  | error e =>
    exact Or.inr (Or.inr (Or.inr (Or.inr ⟨e, rfl⟩)))

/-- Every `catch`-block response is structured. -/
theorem catchResponse_structured (e : RaisedError) :
    (catchResponse e).structured = true := by
  unfold catchResponse
  split <;> rfl

/-- Every `catch`-block response carries the `timestamp` field and a code
from the upstream-failure part of the taxonomy. -/
theorem catchResponse_fields (e : RaisedError) (st : Nat) (msg c : String)
    (t : Bool) (h : catchResponse e = .failure st msg c t) :
    t = true ∧
    (c = "AUTH_ERROR" ∨ c = "RATE_LIMIT" ∨ c = "INVALID_REQUEST" ∨
     c = "SERVICE_ERROR") := by
  unfold catchResponse at h
  split at h <;>
    (obtain ⟨-, -, hc, ht⟩ := Response.failure.injEq .. ▸ h; subst hc; subst ht;
     simp)

/-- C7, counterexample: the claim fails as stated.  The `INVALID_PROMPT`
rejection is a 400 response whose body holds only the `error` and `code`
fields — the final `false` records that no `timestamp` field is present. -/
theorem error_body_counterexample :
    (generateWallpaper ⟨.str "hi", .undefined, .undefined⟩ .transportFailure).1 =
      .failure 400 "Please provide a detailed description (at least 3 characters)"
        "INVALID_PROMPT" false ∧
    Response.failure 400
        "Please provide a detailed description (at least 3 characters)"
        "INVALID_PROMPT" false ≠
      .failure 400 "Please provide a detailed description (at least 3 characters)"
        "INVALID_PROMPT" true := by
  refine ⟨by decide, by decide⟩

/-- C7, amended: every 4xx/5xx response body holds the `error` and `code`
fields, but the `timestamp` field is present exactly on the
upstream-error-mapping (catch) path — the codes `AUTH_ERROR`, `RATE_LIMIT`,
`INVALID_REQUEST` and `SERVICE_ERROR`; the validation failures
`INVALID_PROMPT` and `PROMPT_TOO_LONG` and the `NO_IMAGE_GENERATED` failure
carry only `error` and `code`. -/
theorem error_body_fields (b : Body) (u : Upstream) (st : Nat)
    (msg c : String) (t : Bool)
    (h : (generateWallpaper b u).1 = .failure st msg c t) :
    t = true ↔
      (c = "AUTH_ERROR" ∨ c = "RATE_LIMIT" ∨ c = "INVALID_REQUEST" ∨
       c = "SERVICE_ERROR") := by
  rcases generateWallpaper_shape b u with hg | hg | hg | ⟨url, pu, uid2, hg⟩ |
    ⟨e, hg⟩
  · rw [hg] at h
    obtain ⟨-, -, hc, ht⟩ :=
      Response.failure.injEq .. ▸ h.symm
    subst hc; subst ht; simp
  · rw [hg] at h
    obtain ⟨-, -, hc, ht⟩ :=
      Response.failure.injEq .. ▸ h.symm
    subst hc; subst ht; simp
  · rw [hg] at h
    obtain ⟨-, -, hc, ht⟩ :=
      Response.failure.injEq .. ▸ h.symm
    subst hc; subst ht; simp
  · rw [hg] at h
    exact absurd h (by simp)
  · rw [hg] at h
    obtain ⟨ht, hc⟩ := catchResponse_fields e st msg c t h
    subst ht
    simp [hc]

theorem error_body_fields_witness :
    (generateWallpaper ⟨.str "a calm lake at dawn", .undefined, .undefined⟩
        (.httpFailure 401)).1 =
      .failure 503 "Service authentication error. Please contact support."
        "AUTH_ERROR" true ∧
    (true = true ↔
      ("AUTH_ERROR" = "AUTH_ERROR" ∨ "AUTH_ERROR" = "RATE_LIMIT" ∨
       "AUTH_ERROR" = "INVALID_REQUEST" ∨ "AUTH_ERROR" = "SERVICE_ERROR")) :=
  ⟨by decide,
   error_body_fields ⟨.str "a calm lake at dawn", .undefined, .undefined⟩
     (.httpFailure 401) 503
     "Service authentication error. Please contact support." "AUTH_ERROR" true
     (by decide)⟩

/-- C8: for every request body — malformed or unexpectedly typed fields
included — and every upstream outcome, the handler produces exactly one
structured response: a success, or a failure whose status and code belong to
the documented taxonomy; no exception escapes the handler. -/
theorem handler_always_structured (b : Body) (u : Upstream) :
    ((generateWallpaper b u).1).structured = true := by
  rcases generateWallpaper_shape b u with hg | hg | hg |
    ⟨url, pu, uid2, hg⟩ | ⟨e, hg⟩ <;> rw [hg]
  · rfl
  · rfl
  · rfl
  · rfl
  · exact catchResponse_structured e

/-- C9: a request whose prompt is truthy but not a string is not answered
with a validation error: the `.trim()` call raises, the surrounding handler
catches it, and the response is the 500 `SERVICE_ERROR` with no outbound
call made. -/
theorem nonstring_prompt_service_error (v uid av : JsVal) (u : Upstream)
    (ht : truthy v = true) (hs : isStr v = false) :
    generateWallpaper ⟨v, uid, av⟩ u =
      (.failure 500 "AI service temporarily unavailable. Please try again later."
        "SERVICE_ERROR" true, none) := by
  cases v with
  | str s => simp [isStr] at hs
  | undefined => simp [truthy] at ht
  | nullv => simp [truthy] at ht
  | boolean b =>
    cases b
    · simp [truthy] at ht
    · rfl
  | num n =>
    unfold generateWallpaper tryBlock
    simp only [truthy] at ht
    simp only [truthy, ht, Bool.not_true, Bool.false_eq_true, if_false]
    rfl
  | object => rfl

theorem nonstring_prompt_service_error_witness :
    generateWallpaper ⟨.num 5, .undefined, .undefined⟩ .transportFailure =
      (.failure 500 "AI service temporarily unavailable. Please try again later."
        "SERVICE_ERROR" true, none) :=
  nonstring_prompt_service_error (.num 5) .undefined .undefined .transportFailure
    (by decide) (by decide)

end EcoVista
